import Mathlib

/-!
# Verification of the vue-dr drag-and-resize controller

The repository implements pointer-driven drag-and-resize for a rectangular
element.  Two near-identical copies of the logic exist: a standalone
composable `useResizable` (src/unnamed/part_000) and an inline copy inside
the component `dmr.vue` (src/components/dmr.vue).

Shallow embedding conventions:
* JavaScript numbers (client coordinates, element geometry) are embedded as
  rationals `ℚ`; all arithmetic in the source is addition, subtraction and
  comparison, which are exact.
* The reactive refs `x`, `y`, `width`, `height`, `cursor`, `initialX`,
  `initialY` form the `Ctrl` record.
* Event-listener registration is embedded as an explicit step function on a
  `Sys` state: the window `pointermove` listeners registered by active
  sessions are kept in `Sys.sessions`, in registration order.  The
  `pointerup` listener is registered with `once = true` and its body calls
  the dispose function of its session's move listener; hence on a
  `pointerup` every pending once-listener fires and removes its move
  listener, which the step function models by clearing `sessions`.
* Event dispatch order: the bubble phase runs target-element listeners
  before window listeners, so on a `pointermove` over the element the
  cursor-updating element listener runs first, then the session handlers
  registered on `window` in registration order.
* The element's bounding client rect, when the element is mounted, is its
  absolutely-positioned style box offset by the parent's client origin:
  `left = originX + x`, `top = originY + y` with the current `width` and
  `height`.  When unmounted the rect query yields `none`.
-/

/-- Horizontal resize direction, from the TS union type `'left' | 'right'`. -/
inductive Horiz where
  | left
  | right
deriving DecidableEq, Repr

/-- Vertical resize direction, from the TS union type `'top' | 'bottom'`. -/
inductive Vert where
  | top
  | bottom
deriving DecidableEq, Repr

/-- The `directions` object built in the pointerdown handler: both fields
are optional, mirroring `{ horizontal?: 'left' | 'right', vertical?: 'top' | 'bottom' }`. -/
structure Directions where
  horizontal : Option Horiz
  vertical : Option Vert
deriving DecidableEq, Repr

/-- A DOM bounding client rect, restricted to the four fields the source
reads from `getBoundingClientRect()`. -/
structure Rect where
  left : ℚ
  top : ℚ
  width : ℚ
  height : ℚ
deriving DecidableEq, Repr

/-- The record returned by `getPointerInfo`: pointer offset within the
element and the four edge-proximity booleans. -/
structure PointerInfo where
  offsetX : ℚ
  offsetY : ℚ
  nearLeft : Bool
  nearRight : Bool
  nearTop : Bool
  nearBottom : Bool
deriving DecidableEq, Repr

/-- The controller's reactive state: the refs `x`, `y`, `cursor`, `width`,
`height`, `initialX`, `initialY` declared at the top of both copies. -/
structure Ctrl where
  x : ℚ
  y : ℚ
  cursor : String
  width : ℚ
  height : ℚ
  initialX : ℚ
  initialY : ℚ
deriving DecidableEq, Repr

/-- A transient window `pointermove` listener created by a pointerdown:
either the closure returned by `createResizeHandler` (with its captured
`directions`, `startX`, `startY`, `startWidth`, `startHeight`) or the
`move` closure (with its captured `info.offsetX`, `info.offsetY`). -/
inductive Handler where
  | resize (directions : Directions) (startX startY startWidth startHeight : ℚ)
  | move (offsetX offsetY : ℚ)
deriving DecidableEq, Repr

/-- Full system state: the controller refs plus the window `pointermove`
listeners currently attached (each with a pending once-`pointerup`
listener that will dispose it). -/
structure Sys where
  ctrl : Ctrl
  sessions : List Handler
deriving DecidableEq, Repr

/-- Host environment: whether the element ref is mounted (`dnr.value`
non-null) and the client-space origin of the element's offset parent. -/
structure Env where
  mounted : Bool
  originX : ℚ
  originY : ℚ
deriving DecidableEq, Repr

/-- The element's bounding client rect as a function of the environment and
the controller state: `none` when unmounted, else the styled box
(`left: x px; top: y px; width: width px; height: height px`) translated by
the parent's client origin. -/
def rectOf (env : Env) (c : Ctrl) : Option Rect :=
  if env.mounted then
    some { left := env.originX + c.x, top := env.originY + c.y,
           width := c.width, height := c.height }
  else
    none

/-- A pointer event as seen by the controller's listeners.
`down` is a `pointerdown` dispatched to the element; `moveOver` is a
`pointermove` with the pointer over the element (received by both the
element listener and the window listeners); `moveAway` is a `pointermove`
elsewhere (received only by the window listeners); `up` is a `pointerup`
on the window. -/
inductive Ev where
  | down (clientX clientY : ℚ)
  | moveOver (clientX clientY : ℚ)
  | moveAway (clientX clientY : ℚ)
  | up
deriving DecidableEq, Repr

namespace UseResizable

/-- `getPointerInfo` from `useResizable` (src/unnamed/part_000, lines
34-61): offsets of the pointer inside the rect, distances to the four
edges, and the four `≤ edgeThreshold` proximity tests; `null` when the
element ref is empty. -/
def getPointerInfo (rect? : Option Rect) (edgeThreshold : ℚ)
    (clientX clientY : ℚ) : Option PointerInfo :=
  match rect? with
  | some r =>
    let offsetX := clientX - r.left
    let offsetY := clientY - r.top
    let distanceToLeft := offsetX
    let distanceToRight := r.width - offsetX
    let distanceToTop := offsetY
    let distanceToBottom := r.height - offsetY
    some { offsetX := offsetX
           offsetY := offsetY
           nearLeft := decide (distanceToLeft ≤ edgeThreshold)
           nearRight := decide (distanceToRight ≤ edgeThreshold)
           nearTop := decide (distanceToTop ≤ edgeThreshold)
           nearBottom := decide (distanceToBottom ≤ edgeThreshold) }
  | none => none

/-- `getCursor` from `useResizable` (src/unnamed/part_000, lines 72-109):
the local `cursor` starts at `'default'` but every path of the if/else-if
chain reassigns it (the final `else` sets `'grab'`), so the function is the
chain itself, corners first. -/
def getCursor (nearLeft nearRight nearTop nearBottom : Bool) : String :=
  if nearTop && nearLeft then "nw-resize"
  else if nearTop && nearRight then "ne-resize"
  else if nearBottom && nearLeft then "sw-resize"
  else if nearBottom && nearRight then "se-resize"
  else if nearTop then "n-resize"
  else if nearBottom then "s-resize"
  else if nearLeft then "w-resize"
  else if nearRight then "e-resize"
  else "grab"

/-- The `directions` assignment in the pointerdown handler
(src/unnamed/part_000, lines 163-171): four independent `if` statements,
each overwriting the field, in source order left, right, top, bottom. -/
def mkDirections (info : PointerInfo) : Directions :=
  let d : Directions := { horizontal := none, vertical := none }
  let d := if info.nearLeft then { d with horizontal := some Horiz.left } else d
  let d := if info.nearRight then { d with horizontal := some Horiz.right } else d
  let d := if info.nearTop then { d with vertical := some Vert.top } else d
  let d := if info.nearBottom then { d with vertical := some Vert.bottom } else d
  d

/-- The closure returned by `createResizeHandler` (src/unnamed/part_000,
lines 123-155), applied to a pointermove at `(eX, eY)`: horizontal branch
first (left shrinks width and shifts `x` from `initialX`; right grows
width), then the vertical branch symmetrically. -/
def createResizeHandler (directions : Directions)
    (startX startY startWidth startHeight : ℚ)
    (eX eY : ℚ) (c : Ctrl) : Ctrl :=
  let c :=
    match directions.horizontal with
    | some Horiz.left =>
      let deltaX := eX - startX
      let newWidth := startWidth - deltaX
      { c with width := newWidth, x := c.initialX + deltaX }
    | some Horiz.right =>
      let deltaX := eX - startX
      { c with width := startWidth + deltaX }
    | none => c
  match directions.vertical with
  | some Vert.top =>
    let deltaY := eY - startY
    let newHeight := startHeight - deltaY
    { c with height := newHeight, y := c.initialY + deltaY }
  | some Vert.bottom =>
    let deltaY := eY - startY
    { c with height := startHeight + deltaY }
  | none => c

/-- One attached window `pointermove` listener applied to a pointermove at
`(eX, eY)`: the resize handler, or the `move` closure
(src/unnamed/part_000, lines 190-193) setting `x`/`y` from the captured
pointer-to-element offset. -/
def applyHandler (eX eY : ℚ) (c : Ctrl) : Handler → Ctrl
  | Handler.resize d sX sY sW sH => createResizeHandler d sX sY sW sH eX eY c
  | Handler.move oX oY => { c with x := eX - oX, y := eY - oY }

/-- The element `pointermove` listener (src/unnamed/part_000, lines
202-208): query pointer info, and when it is non-null set `cursor` from
`getCursor`; on null do nothing. -/
def cursorUpdate (edgeThreshold : ℚ) (env : Env) (c : Ctrl)
    (clientX clientY : ℚ) : Ctrl :=
  match getPointerInfo (rectOf env c) edgeThreshold clientX clientY with
  | some info =>
    { c with cursor := getCursor info.nearLeft info.nearRight
                          info.nearTop info.nearBottom }
  | none => c

/-- The pointerdown listener (src/unnamed/part_000, lines 158-199): on
non-null pointer info build `directions`; if any direction is set, record
`initialX`/`initialY` and attach the resize handler as a window
pointermove listener, else attach the `move` closure; either way a
once-`pointerup` listener is registered that will dispose the new move
listener.  On null info, do nothing. -/
def pointerDown (edgeThreshold : ℚ) (env : Env) (s : Sys)
    (clientX clientY : ℚ) : Sys :=
  match getPointerInfo (rectOf env s.ctrl) edgeThreshold clientX clientY with
  | some info =>
    let directions := mkDirections info
    if directions.horizontal.isSome || directions.vertical.isSome then
      let ctrl := { s.ctrl with initialX := s.ctrl.x, initialY := s.ctrl.y }
      { ctrl := ctrl
        sessions := s.sessions ++
          [Handler.resize directions clientX clientY ctrl.width ctrl.height] }
    else
      { s with sessions := s.sessions ++
          [Handler.move info.offsetX info.offsetY] }
  | none => s

/-- One pointer event processed by all attached listeners, in dispatch
order.  `down` runs the element pointerdown listener; `moveOver` runs the
element cursor listener (bubble phase reaches the target before the
window) and then every window move listener in registration order;
`moveAway` runs only the window move listeners; `up` fires every pending
once-`pointerup` listener, each of which disposes its session's move
listener and self-detaches. -/
def step (edgeThreshold : ℚ) (env : Env) (s : Sys) : Ev → Sys
  | Ev.down cX cY => pointerDown edgeThreshold env s cX cY
  | Ev.moveOver cX cY =>
    let c := cursorUpdate edgeThreshold env s.ctrl cX cY
    { s with ctrl := s.sessions.foldl (applyHandler cX cY) c }
  | Ev.moveAway cX cY =>
    { s with ctrl := s.sessions.foldl (applyHandler cX cY) s.ctrl }
  | Ev.up => { s with sessions := [] }

/-- A whole pointer-event sequence processed in order. -/
def run (edgeThreshold : ℚ) (env : Env) (s : Sys) (evs : List Ev) : Sys :=
  evs.foldl (step edgeThreshold env) s

end UseResizable

namespace Dmr

/-- `const edgeThreshold = 16` from dmr.vue, line 7. -/
def edgeThreshold : ℚ := 16

/-- `getPointerInfo` from dmr.vue, lines 23-50 (inline copy, with the
module-level `edgeThreshold`). -/
def getPointerInfo (rect? : Option Rect) (clientX clientY : ℚ) :
    Option PointerInfo :=
  match rect? with
  | some r =>
    let offsetX := clientX - r.left
    let offsetY := clientY - r.top
    let distanceToLeft := offsetX
    let distanceToRight := r.width - offsetX
    let distanceToTop := offsetY
    let distanceToBottom := r.height - offsetY
    some { offsetX := offsetX
           offsetY := offsetY
           nearLeft := decide (distanceToLeft ≤ edgeThreshold)
           nearRight := decide (distanceToRight ≤ edgeThreshold)
           nearTop := decide (distanceToTop ≤ edgeThreshold)
           nearBottom := decide (distanceToBottom ≤ edgeThreshold) }
  | none => none

/-- `getCursor` from dmr.vue, lines 52-84: same corner-first if/else-if
chain as the composable; the initial `'default'` is always overwritten. -/
def getCursor (nearLeft nearRight nearTop nearBottom : Bool) : String :=
  if nearTop && nearLeft then "nw-resize"
  else if nearTop && nearRight then "ne-resize"
  else if nearBottom && nearLeft then "sw-resize"
  else if nearBottom && nearRight then "se-resize"
  else if nearTop then "n-resize"
  else if nearBottom then "s-resize"
  else if nearLeft then "w-resize"
  else if nearRight then "e-resize"
  else "grab"

/-- The `directions` assignment in the pointerdown handler of dmr.vue,
lines 124-132: four independent `if` statements in order left, right, top,
bottom, each overwriting the field. -/
def mkDirections (info : PointerInfo) : Directions :=
  let d : Directions := { horizontal := none, vertical := none }
  let d := if info.nearLeft then { d with horizontal := some Horiz.left } else d
  let d := if info.nearRight then { d with horizontal := some Horiz.right } else d
  let d := if info.nearTop then { d with vertical := some Vert.top } else d
  let d := if info.nearBottom then { d with vertical := some Vert.bottom } else d
  d

/-- The closure returned by `createResizeHandler` from dmr.vue, lines
87-117, applied to a pointermove at `(eX, eY)`. -/
def createResizeHandler (directions : Directions)
    (startX startY startWidth startHeight : ℚ)
    (eX eY : ℚ) (c : Ctrl) : Ctrl :=
  let c :=
    match directions.horizontal with
    | some Horiz.left =>
      let deltaX := eX - startX
      let newWidth := startWidth - deltaX
      { c with width := newWidth, x := c.initialX + deltaX }
    | some Horiz.right =>
      let deltaX := eX - startX
      { c with width := startWidth + deltaX }
    | none => c
  match directions.vertical with
  | some Vert.top =>
    let deltaY := eY - startY
    let newHeight := startHeight - deltaY
    { c with height := newHeight, y := c.initialY + deltaY }
  | some Vert.bottom =>
    let deltaY := eY - startY
    { c with height := startHeight + deltaY }
  | none => c

/-- One attached window `pointermove` listener of the component applied to
a pointermove at `(eX, eY)`: the resize handler or the `move` closure
(dmr.vue, lines 143-146). -/
def applyHandler (eX eY : ℚ) (c : Ctrl) : Handler → Ctrl
  | Handler.resize d sX sY sW sH => createResizeHandler d sX sY sW sH eX eY c
  | Handler.move oX oY => { c with x := eX - oX, y := eY - oY }

/-- The element `pointermove` listener of dmr.vue, lines 154-160. -/
def cursorUpdate (env : Env) (c : Ctrl) (clientX clientY : ℚ) : Ctrl :=
  match getPointerInfo (rectOf env c) clientX clientY with
  | some info =>
    { c with cursor := getCursor info.nearLeft info.nearRight
                          info.nearTop info.nearBottom }
  | none => c

/-- The pointerdown listener of dmr.vue, lines 119-152. -/
def pointerDown (env : Env) (s : Sys) (clientX clientY : ℚ) : Sys :=
  match getPointerInfo (rectOf env s.ctrl) clientX clientY with
  | some info =>
    let directions := mkDirections info
    if directions.horizontal.isSome || directions.vertical.isSome then
      let ctrl := { s.ctrl with initialX := s.ctrl.x, initialY := s.ctrl.y }
      { ctrl := ctrl
        sessions := s.sessions ++
          [Handler.resize directions clientX clientY ctrl.width ctrl.height] }
    else
      { s with sessions := s.sessions ++
          [Handler.move info.offsetX info.offsetY] }
  | none => s

/-- One pointer event processed by all listeners of the component, in
dispatch order (same event model as the composable). -/
def step (env : Env) (s : Sys) : Ev → Sys
  | Ev.down cX cY => pointerDown env s cX cY
  | Ev.moveOver cX cY =>
    let c := cursorUpdate env s.ctrl cX cY
    { s with ctrl := s.sessions.foldl (applyHandler cX cY) c }
  | Ev.moveAway cX cY =>
    { s with ctrl := s.sessions.foldl (applyHandler cX cY) s.ctrl }
  | Ev.up => { s with sessions := [] }

/-- A whole pointer-event sequence processed by the component. -/
def run (env : Env) (s : Sys) (evs : List Ev) : Sys :=
  evs.foldl (step env) s

end Dmr

/-- The initial controller state of the composable: `x = ref(0)`,
`y = ref(0)`, `cursor = ref('default')`, `width = ref(100)`,
`height = ref(100)`, `initialX = ref(0)`, `initialY = ref(0)`
(src/unnamed/part_000, lines 12-18). -/
def UseResizable.initialCtrl : Ctrl :=
  { x := 0, y := 0, cursor := "default", width := 100, height := 100,
    initialX := 0, initialY := 0 }

/-- The initial controller state of the component (dmr.vue, lines 2-13):
same ref initializers as the composable. -/
def Dmr.initialCtrl : Ctrl :=
  { x := 0, y := 0, cursor := "default", width := 100, height := 100,
    initialX := 0, initialY := 0 }

/-- Cursor resolution exactly as the spec words it (section 4.2 Cursor
Resolver): corners checked before edges, in fixed order top-left,
top-right, bottom-left, bottom-right, then single edges top, bottom, left,
right, else `'grab'`.  Written from the spec text, independently of the
source transcriptions, so the code's `getCursor` can be compared with the
spec's description. -/
def getCursorSpec (nearLeft nearRight nearTop nearBottom : Bool) : String :=
  if nearTop && nearLeft then "nw-resize"
  else if nearTop && nearRight then "ne-resize"
  else if nearBottom && nearLeft then "sw-resize"
  else if nearBottom && nearRight then "se-resize"
  else if nearTop then "n-resize"
  else if nearBottom then "s-resize"
  else if nearLeft then "w-resize"
  else if nearRight then "e-resize"
  else "grab"

/-- The nine cursor hints `getCursor` can actually produce (everything in
the spec's CursorHint enumeration except `'default'`). -/
def resizeCursorHints : List String :=
  ["n-resize", "s-resize", "e-resize", "w-resize",
   "ne-resize", "nw-resize", "se-resize", "sw-resize", "grab"]

/-- A sequence of window pointermove events away from the element, one per
coordinate pair. -/
def movesAway (ps : List (ℚ × ℚ)) : List Ev :=
  ps.map (fun p => Ev.moveAway p.1 p.2)


/-- Neither branch of an attached window pointermove listener writes the
`cursor` ref: the resize handler touches `width`/`x`/`height`/`y`, the
move closure touches `x`/`y`. -/
lemma applyHandler_cursor (eX eY : ℚ) (c : Ctrl) (h : Handler) :
    (UseResizable.applyHandler eX eY c h).cursor = c.cursor := by
  cases h with
  | resize d sX sY sW sH =>
    obtain ⟨hor, ver⟩ := d
    rcases hor with _ | hor <;> rcases ver with _ | ver <;>
      first
        | rfl
        | (cases hor <;> rfl)
        | (cases ver <;> rfl)
        | (cases hor <;> cases ver <;> rfl)
  | move oX oY => rfl

/-- Folding any list of window pointermove listeners never changes the
`cursor` ref. -/
lemma foldl_applyHandler_cursor (eX eY : ℚ) (l : List Handler) (c : Ctrl) :
    (l.foldl (UseResizable.applyHandler eX eY) c).cursor = c.cursor := by
  induction l generalizing c with
  | nil => rfl
  | cons h t ih => rw [List.foldl_cons, ih, applyHandler_cursor]

/-- The element pointermove listener writes only the `cursor` ref: the
geometry refs `x`, `y`, `width`, `height` and the anchors `initialX`,
`initialY` are untouched. -/
lemma cursorUpdate_geom (thr : ℚ) (env : Env) (c : Ctrl) (cX cY : ℚ) :
    (UseResizable.cursorUpdate thr env c cX cY).x = c.x ∧
    (UseResizable.cursorUpdate thr env c cX cY).y = c.y ∧
    (UseResizable.cursorUpdate thr env c cX cY).width = c.width ∧
    (UseResizable.cursorUpdate thr env c cX cY).height = c.height ∧
    (UseResizable.cursorUpdate thr env c cX cY).initialX = c.initialX ∧
    (UseResizable.cursorUpdate thr env c cX cY).initialY = c.initialY := by
  unfold UseResizable.cursorUpdate
  split <;> exact ⟨rfl, rfl, rfl, rfl, rfl, rfl⟩

/-- C2: for all four proximity booleans, `getCursor` (both copies) returns
the hint given by the spec's corner-priority tie-breaking: corners checked
first in the fixed order top-left, top-right, bottom-left, bottom-right,
then single edges top, bottom, left, right, else `'grab'`.  In particular
a pointer near exactly one edge gets that edge's directional hint and a
pointer near two adjacent edges gets the corner hint. -/
theorem C2_getCursor_corner_priority :
    (∀ l r t b : Bool, UseResizable.getCursor l r t b = getCursorSpec l r t b) ∧
    (∀ l r t b : Bool, Dmr.getCursor l r t b = getCursorSpec l r t b) ∧
    UseResizable.getCursor true false false false = "w-resize" ∧
    UseResizable.getCursor false true false false = "e-resize" ∧
    UseResizable.getCursor false false true false = "n-resize" ∧
    UseResizable.getCursor false false false true = "s-resize" ∧
    UseResizable.getCursor true false true false = "nw-resize" ∧
    UseResizable.getCursor false true true false = "ne-resize" ∧
    UseResizable.getCursor true false false true = "sw-resize" ∧
    UseResizable.getCursor false true false true = "se-resize" ∧
    UseResizable.getCursor false false false false = "grab" := by
  decide

/-- C10: `getCursor` never returns `'default'`; its range is exactly the
nine hints of `resizeCursorHints` (each attained), the all-false input
yields `'grab'`, and `'default'` appears only as the initial value of the
`cursor` ref. -/
theorem C10_getCursor_range :
    (∀ l r t b : Bool, UseResizable.getCursor l r t b ≠ "default") ∧
    (∀ l r t b : Bool, UseResizable.getCursor l r t b ∈ resizeCursorHints) ∧
    UseResizable.getCursor false false true false = "n-resize" ∧
    UseResizable.getCursor false false false true = "s-resize" ∧
    UseResizable.getCursor false true false false = "e-resize" ∧
    UseResizable.getCursor true false false false = "w-resize" ∧
    UseResizable.getCursor false true true false = "ne-resize" ∧
    UseResizable.getCursor true false true false = "nw-resize" ∧
    UseResizable.getCursor false true false true = "se-resize" ∧
    UseResizable.getCursor true false false true = "sw-resize" ∧
    UseResizable.getCursor false false false false = "grab" ∧
    UseResizable.initialCtrl.cursor = "default" := by
  decide

/-- C9: the standalone composable and the inline copy inside the component
are behaviorally equivalent: from any shared state and environment, every
pointer-event sequence produces identical full states (hence identical
`x`, `y`, `width`, `height` and `cursor`), the pure helpers agree
pointwise, the initial ref values agree, and the component's fixed
threshold is the composable's default 16. -/
theorem C9_component_equals_composable :
    (∀ (env : Env) (s : Sys) (evs : List Ev),
      Dmr.run env s evs = UseResizable.run 16 env s evs) ∧
    (∀ (r? : Option Rect) (cX cY : ℚ),
      Dmr.getPointerInfo r? cX cY = UseResizable.getPointerInfo r? 16 cX cY) ∧
    (∀ l r t b : Bool, Dmr.getCursor l r t b = UseResizable.getCursor l r t b) ∧
    Dmr.initialCtrl = UseResizable.initialCtrl ∧
    Dmr.edgeThreshold = 16 :=
  ⟨fun _ _ _ => rfl, fun _ _ _ => rfl, fun _ _ _ _ => rfl, rfl, rfl⟩

/-- C7: a pointerup unconditionally clears every transient window
pointermove listener (each pending once-pointerup listener fires, disposes
its session's move listener and self-detaches), leaving the controller
refs untouched; afterwards further pointermoves no longer update position
or size, and a further pointerup finds nothing left to detach. -/
theorem C7_pointerup_detaches (thr : ℚ) (env : Env) (s : Sys) (mX mY : ℚ) :
    UseResizable.step thr env s Ev.up = { s with sessions := [] } ∧
    (UseResizable.step thr env (UseResizable.step thr env s Ev.up)
        (Ev.moveAway mX mY)).ctrl
      = s.ctrl ∧
    ((UseResizable.step thr env (UseResizable.step thr env s Ev.up)
        (Ev.moveOver mX mY)).ctrl.x = s.ctrl.x ∧
     (UseResizable.step thr env (UseResizable.step thr env s Ev.up)
        (Ev.moveOver mX mY)).ctrl.y = s.ctrl.y ∧
     (UseResizable.step thr env (UseResizable.step thr env s Ev.up)
        (Ev.moveOver mX mY)).ctrl.width = s.ctrl.width ∧
     (UseResizable.step thr env (UseResizable.step thr env s Ev.up)
        (Ev.moveOver mX mY)).ctrl.height = s.ctrl.height) ∧
    UseResizable.step thr env (UseResizable.step thr env s Ev.up) Ev.up
      = UseResizable.step thr env s Ev.up := by
  refine ⟨rfl, rfl, ⟨?_, ?_, ?_, ?_⟩, rfl⟩ <;>
    simp [UseResizable.step, cursorUpdate_geom thr env s.ctrl mX mY]

/-- C1 counterexample: on a mounted 20×20 element a pointer-down at
(10, 10) computes all four proximity flags true, yet the stored session's
directions are `right`/`bottom`, not `left`/`top`: the four independent
`if` statements let the later assignments overwrite the earlier ones. -/
theorem C1_left_precedence_counterexample :
    UseResizable.getPointerInfo
        (rectOf ⟨true, 0, 0⟩ ⟨0, 0, "default", 20, 20, 0, 0⟩) 16 10 10
      = some ⟨10, 10, true, true, true, true⟩ ∧
    (UseResizable.step 16 ⟨true, 0, 0⟩ ⟨⟨0, 0, "default", 20, 20, 0, 0⟩, []⟩
        (Ev.down 10 10)).sessions
      = [Handler.resize ⟨some Horiz.right, some Vert.bottom⟩ 10 10 20 20] ∧
    some Horiz.right ≠ some Horiz.left ∧
    some Vert.bottom ≠ some Vert.top := by
  refine ⟨?_, ?_, by decide, by decide⟩
  · norm_num [UseResizable.getPointerInfo, rectOf]
  · norm_num [UseResizable.step, UseResizable.pointerDown,
      UseResizable.getPointerInfo, rectOf, UseResizable.mkDirections]

/-- C1 (amended): on pointer-down, when both `nearLeft` and `nearRight`
are true the session's chosen horizontal direction is `right` (the
`nearRight` assignment runs last and overwrites `left`), and when both
`nearTop` and `nearBottom` are true the chosen vertical direction is
`bottom`; `left` (resp. `top`) is chosen only when the opposite flag is
false, and the pointer-down stores exactly these directions in the new
session. -/
theorem C1_directions_overwrite (thr : ℚ) (env : Env) (s : Sys)
    (cX cY : ℚ) (i : PointerInfo)
    (hi : UseResizable.getPointerInfo (rectOf env s.ctrl) thr cX cY = some i) :
    (i.nearLeft = true → i.nearRight = true →
      (UseResizable.mkDirections i).horizontal = some Horiz.right) ∧
    (i.nearTop = true → i.nearBottom = true →
      (UseResizable.mkDirections i).vertical = some Vert.bottom) ∧
    (i.nearLeft = true → i.nearRight = false →
      (UseResizable.mkDirections i).horizontal = some Horiz.left) ∧
    (i.nearTop = true → i.nearBottom = false →
      (UseResizable.mkDirections i).vertical = some Vert.top) ∧
    (i.nearLeft = true →
      (UseResizable.pointerDown thr env s cX cY).sessions
        = s.sessions ++ [Handler.resize (UseResizable.mkDirections i) cX cY
            s.ctrl.width s.ctrl.height]) := by
  obtain ⟨oX, oY, l, r, t, b⟩ := i
  cases l <;> cases r <;> cases t <;> cases b <;>
    simp_all [UseResizable.mkDirections, UseResizable.pointerDown]

/-- Witness for C1: at the all-flags-true pointer info of the 20×20
counterexample element, the directions stored by the pointer-down are
`right` and `bottom`. -/
theorem C1_directions_overwrite_witness :
    (UseResizable.mkDirections ⟨10, 10, true, true, true, true⟩).horizontal
      = some Horiz.right ∧
    (UseResizable.mkDirections ⟨10, 10, true, true, true, true⟩).vertical
      = some Vert.bottom ∧
    (UseResizable.pointerDown 16 ⟨true, 0, 0⟩
        ⟨⟨0, 0, "default", 20, 20, 0, 0⟩, []⟩ 10 10).sessions
      = [Handler.resize (UseResizable.mkDirections ⟨10, 10, true, true, true, true⟩)
          10 10 20 20] := by
  have h := C1_directions_overwrite 16 ⟨true, 0, 0⟩
    ⟨⟨0, 0, "default", 20, 20, 0, 0⟩, []⟩ 10 10 ⟨10, 10, true, true, true, true⟩
    (by norm_num [UseResizable.getPointerInfo, rectOf])
  exact ⟨h.1 rfl rfl, h.2.1 rfl rfl, by simpa using h.2.2.2.2 rfl⟩

/-- C6: with the element unmounted the geometry query returns `null`, and
a pointer-down — or, in the idle state, any pointer-move — leaves the
whole state unchanged (`x`, `y`, `width`, `height`, `cursor` untouched);
every embedded handler is a total function, so no exception is raised. -/
theorem C6_unmounted_noop (thr : ℚ) (env : Env) (s : Sys) (cX cY : ℚ)
    (hm : env.mounted = false) :
    UseResizable.getPointerInfo (rectOf env s.ctrl) thr cX cY = none ∧
    UseResizable.step thr env s (Ev.down cX cY) = s ∧
    (s.sessions = [] →
      UseResizable.step thr env s (Ev.moveOver cX cY) = s ∧
      UseResizable.step thr env s (Ev.moveAway cX cY) = s) := by
  have hrect : rectOf env s.ctrl = none := by simp [rectOf, hm]
  refine ⟨by simp [UseResizable.getPointerInfo, hrect], ?_, fun hs => ⟨?_, ?_⟩⟩
  · simp [UseResizable.step, UseResizable.pointerDown, hrect,
      UseResizable.getPointerInfo]
  · obtain ⟨c, sess⟩ := s
    simp only at hs
    subst hs
    simp_all [UseResizable.step, UseResizable.cursorUpdate,
      UseResizable.getPointerInfo]
  · obtain ⟨c, sess⟩ := s
    simp only at hs
    subst hs
    simp [UseResizable.step]

/-- Witness for C6: a concrete unmounted environment where the query is
`none` and pointer-down/pointer-move events change nothing. -/
theorem C6_unmounted_noop_witness :
    UseResizable.getPointerInfo
        (rectOf ⟨false, 0, 0⟩ UseResizable.initialCtrl) 16 5 5 = none ∧
    UseResizable.step 16 ⟨false, 0, 0⟩ ⟨UseResizable.initialCtrl, []⟩
        (Ev.down 5 5) = ⟨UseResizable.initialCtrl, []⟩ ∧
    UseResizable.step 16 ⟨false, 0, 0⟩ ⟨UseResizable.initialCtrl, []⟩
        (Ev.moveOver 5 5) = ⟨UseResizable.initialCtrl, []⟩ ∧
    UseResizable.step 16 ⟨false, 0, 0⟩ ⟨UseResizable.initialCtrl, []⟩
        (Ev.moveAway 5 5) = ⟨UseResizable.initialCtrl, []⟩ := by
  have h := C6_unmounted_noop 16 ⟨false, 0, 0⟩ ⟨UseResizable.initialCtrl, []⟩
    5 5 rfl
  exact ⟨h.1, h.2.1, (h.2.2 rfl).1, (h.2.2 rfl).2⟩

/-- C8 counterexample: from an idle 100×100 element, a pointer-down in the
interior starts a Moving session (the session list is non-empty and the
cursor is still `'default'`), yet the next pointer-move over the element
updates the cursor to `'w-resize'` — the element pointermove listener has
no idle guard, so cursor updates do happen while a session is active,
refuting "never while a Resizing or Moving session is active". -/
theorem C8_cursor_during_session_counterexample :
    (UseResizable.step 16 ⟨true, 0, 0⟩ ⟨⟨0, 0, "default", 100, 100, 0, 0⟩, []⟩
        (Ev.down 50 50)).sessions ≠ [] ∧
    (UseResizable.step 16 ⟨true, 0, 0⟩ ⟨⟨0, 0, "default", 100, 100, 0, 0⟩, []⟩
        (Ev.down 50 50)).ctrl.cursor = "default" ∧
    (UseResizable.step 16 ⟨true, 0, 0⟩ (UseResizable.step 16 ⟨true, 0, 0⟩
        ⟨⟨0, 0, "default", 100, 100, 0, 0⟩, []⟩ (Ev.down 50 50))
        (Ev.moveOver 10 50)).ctrl.cursor = "w-resize" := by
  norm_num [UseResizable.step, UseResizable.pointerDown,
    UseResizable.getPointerInfo, rectOf, UseResizable.mkDirections,
    UseResizable.cursorUpdate, UseResizable.applyHandler,
    UseResizable.getCursor]

/-- C8 (amended): the cursor hint is recomputed and published on every
pointer-move over the element regardless of the session state — the
element pointermove listener has no idle guard, so this happens both while
idle and while a Resizing or Moving session is active; the published value
is `getCursor` of the four proximity flags computed at the move. -/
theorem C8_cursor_not_idle_guarded (thr : ℚ) (env : Env) (s : Sys)
    (mX mY : ℚ) (i : PointerInfo)
    (hi : UseResizable.getPointerInfo (rectOf env s.ctrl) thr mX mY = some i) :
    (UseResizable.step thr env s (Ev.moveOver mX mY)).ctrl.cursor
      = UseResizable.getCursor i.nearLeft i.nearRight i.nearTop i.nearBottom := by
  simp [UseResizable.step, foldl_applyHandler_cursor, UseResizable.cursorUpdate, hi]

/-- Witness for C8: with a Moving session active on a mounted 100×100
element, a pointer-move over the element at (10, 50) publishes the cursor
for the near-left flags. -/
theorem C8_cursor_not_idle_guarded_witness :
    (UseResizable.step 16 ⟨true, 0, 0⟩ ⟨⟨0, 0, "default", 100, 100, 0, 0⟩,
        [Handler.move 50 50]⟩ (Ev.moveOver 10 50)).ctrl.cursor
      = UseResizable.getCursor true false false false :=
  C8_cursor_not_idle_guarded 16 ⟨true, 0, 0⟩
    ⟨⟨0, 0, "default", 100, 100, 0, 0⟩, [Handler.move 50 50]⟩ 10 50
    ⟨10, 50, true, false, false, false⟩
    (by norm_num [UseResizable.getPointerInfo, rectOf])

/-- The resize handler is anchor-based, not incremental: applying it twice
for two pointermoves gives the same state as applying it once for the
second move, because it only reads the captured anchors and the invariant
`initialX`/`initialY` refs. -/
lemma createResizeHandler_twice (d : Directions)
    (cX cY sW sH m1X m1Y m2X m2Y : ℚ) (c : Ctrl) :
    UseResizable.createResizeHandler d cX cY sW sH m2X m2Y
        (UseResizable.createResizeHandler d cX cY sW sH m1X m1Y c)
      = UseResizable.createResizeHandler d cX cY sW sH m2X m2Y c := by
  obtain ⟨hor, ver⟩ := d
  rcases hor with _ | hor <;> rcases ver with _ | ver <;>
    first
      | rfl
      | (cases hor <;> rfl)
      | (cases ver <;> rfl)
      | (cases hor <;> cases ver <;> rfl)

/-- With a single resize session attached, any run of pointermoves ending
at `(mX, mY)` leaves the controller exactly as a single application of the
resize handler at `(mX, mY)` would. -/
lemma run_single_resize_session (thr : ℚ) (env : Env) (d : Directions)
    (cX cY sW sH : ℚ) (ms : List (ℚ × ℚ)) (mX mY : ℚ) (c : Ctrl) :
    (UseResizable.run thr env ⟨c, [Handler.resize d cX cY sW sH]⟩
        (movesAway ms ++ [Ev.moveAway mX mY])).ctrl
      = UseResizable.createResizeHandler d cX cY sW sH mX mY c := by
  induction ms generalizing c with
  | nil => rfl
  | cons p ps ih =>
    have h1 : UseResizable.run thr env ⟨c, [Handler.resize d cX cY sW sH]⟩
        (movesAway (p :: ps) ++ [Ev.moveAway mX mY])
      = UseResizable.run thr env
          ⟨UseResizable.createResizeHandler d cX cY sW sH p.1 p.2 c,
           [Handler.resize d cX cY sW sH]⟩
          (movesAway ps ++ [Ev.moveAway mX mY]) := rfl
    rw [h1, ih, createResizeHandler_twice]

/-- With a single move session attached, any run of pointermoves ending at
`(mX, mY)` puts the position at the pointer minus the captured offset and
changes nothing else. -/
lemma run_single_move_session (thr : ℚ) (env : Env) (oX oY : ℚ)
    (ms : List (ℚ × ℚ)) (mX mY : ℚ) (c : Ctrl) :
    (UseResizable.run thr env ⟨c, [Handler.move oX oY]⟩
        (movesAway ms ++ [Ev.moveAway mX mY])).ctrl
      = { c with x := mX - oX, y := mY - oY } := by
  induction ms generalizing c with
  | nil => rfl
  | cons p ps ih =>
    have h1 : UseResizable.run thr env ⟨c, [Handler.move oX oY]⟩
        (movesAway (p :: ps) ++ [Ev.moveAway mX mY])
      = UseResizable.run thr env
          ⟨{ c with x := p.1 - oX, y := p.2 - oY }, [Handler.move oX oY]⟩
          (movesAway ps ++ [Ev.moveAway mX mY]) := rfl
    rw [h1, ih]

/-- A pointer-down whose computed info has exactly one proximity flag set
starts a Resizing session with the matching single direction, after
snapshotting the position into `initialX`/`initialY`. -/
lemma pointerDown_single_flag (thr : ℚ) (env : Env) (s : Sys)
    (cX cY : ℚ) (i : PointerInfo) (d : Directions)
    (hs : s.sessions = [])
    (hi : UseResizable.getPointerInfo (rectOf env s.ctrl) thr cX cY = some i)
    (hd : UseResizable.mkDirections i = d)
    (hsome : d.horizontal.isSome || d.vertical.isSome) :
    UseResizable.step thr env s (Ev.down cX cY)
      = ⟨{ s.ctrl with initialX := s.ctrl.x, initialY := s.ctrl.y },
         [Handler.resize d cX cY s.ctrl.width s.ctrl.height]⟩ := by
  obtain ⟨c, sess⟩ := s
  simp only at hs hi ⊢
  subst hs
  simp [UseResizable.step, UseResizable.pointerDown, hi, hd, hsome]

/-- C3: during a left-edge resize session each pointer-move sets
`width = anchor width − (current X − anchor X)` and
`x = anchor x + (current X − anchor X)`, so the right edge `x + width`
stays fixed at its pointer-down value; top-edge resize is symmetric with
`height` and `y` (bottom edge fixed).  Stated for the move ending an
arbitrary run of pointermoves after the pointer-down. -/
theorem C3_left_top_resize_anchored (thr : ℚ) (env : Env) (s : Sys)
    (cX cY mX mY : ℚ) (ms : List (ℚ × ℚ)) (i : PointerInfo)
    (hs : s.sessions = [])
    (hi : UseResizable.getPointerInfo (rectOf env s.ctrl) thr cX cY = some i) :
    (i.nearLeft = true → i.nearRight = false → i.nearTop = false →
        i.nearBottom = false →
      (UseResizable.run thr env s (Ev.down cX cY ::
          (movesAway ms ++ [Ev.moveAway mX mY]))).ctrl.width
        = s.ctrl.width - (mX - cX) ∧
      (UseResizable.run thr env s (Ev.down cX cY ::
          (movesAway ms ++ [Ev.moveAway mX mY]))).ctrl.x
        = s.ctrl.x + (mX - cX) ∧
      (UseResizable.run thr env s (Ev.down cX cY ::
          (movesAway ms ++ [Ev.moveAway mX mY]))).ctrl.x
        + (UseResizable.run thr env s (Ev.down cX cY ::
            (movesAway ms ++ [Ev.moveAway mX mY]))).ctrl.width
        = s.ctrl.x + s.ctrl.width) ∧
    (i.nearTop = true → i.nearLeft = false → i.nearRight = false →
        i.nearBottom = false →
      (UseResizable.run thr env s (Ev.down cX cY ::
          (movesAway ms ++ [Ev.moveAway mX mY]))).ctrl.height
        = s.ctrl.height - (mY - cY) ∧
      (UseResizable.run thr env s (Ev.down cX cY ::
          (movesAway ms ++ [Ev.moveAway mX mY]))).ctrl.y
        = s.ctrl.y + (mY - cY) ∧
      (UseResizable.run thr env s (Ev.down cX cY ::
          (movesAway ms ++ [Ev.moveAway mX mY]))).ctrl.y
        + (UseResizable.run thr env s (Ev.down cX cY ::
            (movesAway ms ++ [Ev.moveAway mX mY]))).ctrl.height
        = s.ctrl.y + s.ctrl.height) := by
  have hrun : ∀ (d : Directions),
      UseResizable.mkDirections i = d → d.horizontal.isSome || d.vertical.isSome →
      (UseResizable.run thr env s (Ev.down cX cY ::
          (movesAway ms ++ [Ev.moveAway mX mY]))).ctrl
        = UseResizable.createResizeHandler d cX cY s.ctrl.width s.ctrl.height mX mY
            { s.ctrl with initialX := s.ctrl.x, initialY := s.ctrl.y } := by
    intro d hd hsome
    have h1 : UseResizable.run thr env s (Ev.down cX cY ::
        (movesAway ms ++ [Ev.moveAway mX mY]))
      = UseResizable.run thr env (UseResizable.step thr env s (Ev.down cX cY))
          (movesAway ms ++ [Ev.moveAway mX mY]) := rfl
    rw [h1, pointerDown_single_flag thr env s cX cY i d hs hi hd hsome,
      run_single_resize_session]
  constructor
  · intro hL hR hT hB
    have hd : UseResizable.mkDirections i = ⟨some Horiz.left, none⟩ := by
      simp [UseResizable.mkDirections, hL, hR, hT, hB]
    rw [hrun ⟨some Horiz.left, none⟩ hd (by simp)]
    refine ⟨rfl, rfl, ?_⟩
    show (s.ctrl.x + (mX - cX)) + (s.ctrl.width - (mX - cX))
      = s.ctrl.x + s.ctrl.width
    ring
  · intro hT hL hR hB
    have hd : UseResizable.mkDirections i = ⟨none, some Vert.top⟩ := by
      simp [UseResizable.mkDirections, hL, hR, hT, hB]
    rw [hrun ⟨none, some Vert.top⟩ hd (by simp)]
    refine ⟨rfl, rfl, ?_⟩
    show (s.ctrl.y + (mY - cY)) + (s.ctrl.height - (mY - cY))
      = s.ctrl.y + s.ctrl.height
    ring

/-- Witness for C3, the spec's worked example: a 200×100 element at
(50, 50); a left-edge pointer-down followed by a +30 horizontal drag gives
width 170 and x 80; a top-edge pointer-down followed by a +30 vertical
drag gives height 70 and y 80. -/
theorem C3_left_top_resize_anchored_witness :
    (UseResizable.run 16 ⟨true, 0, 0⟩ ⟨⟨50, 50, "default", 200, 100, 0, 0⟩, []⟩
        (Ev.down 52 100 :: (movesAway [] ++ [Ev.moveAway 82 100]))).ctrl.width
      = 170 ∧
    (UseResizable.run 16 ⟨true, 0, 0⟩ ⟨⟨50, 50, "default", 200, 100, 0, 0⟩, []⟩
        (Ev.down 52 100 :: (movesAway [] ++ [Ev.moveAway 82 100]))).ctrl.x
      = 80 ∧
    (UseResizable.run 16 ⟨true, 0, 0⟩ ⟨⟨50, 50, "default", 200, 100, 0, 0⟩, []⟩
        (Ev.down 100 52 :: (movesAway [] ++ [Ev.moveAway 100 82]))).ctrl.height
      = 70 ∧
    (UseResizable.run 16 ⟨true, 0, 0⟩ ⟨⟨50, 50, "default", 200, 100, 0, 0⟩, []⟩
        (Ev.down 100 52 :: (movesAway [] ++ [Ev.moveAway 100 82]))).ctrl.y
      = 80 := by
  have h1 := (C3_left_top_resize_anchored 16 ⟨true, 0, 0⟩
      ⟨⟨50, 50, "default", 200, 100, 0, 0⟩, []⟩ 52 100 82 100 []
      ⟨2, 50, true, false, false, false⟩ rfl
      (by norm_num [UseResizable.getPointerInfo, rectOf])).1 rfl rfl rfl rfl
  have h2 := (C3_left_top_resize_anchored 16 ⟨true, 0, 0⟩
      ⟨⟨50, 50, "default", 200, 100, 0, 0⟩, []⟩ 100 52 100 82 []
      ⟨50, 2, false, false, true, false⟩ rfl
      (by norm_num [UseResizable.getPointerInfo, rectOf])).2 rfl rfl rfl rfl
  refine ⟨?_, ?_, ?_, ?_⟩
  · rw [h1.1]; norm_num
  · rw [h1.2.1]; norm_num
  · rw [h2.1]; norm_num
  · rw [h2.2.1]; norm_num

/-- C4: during a Moving session each pointer-move sets the position to the
current pointer coordinates minus the pointer-to-element offset captured
at pointer-down (the grab point stays fixed under the pointer), and
`width`, `height` (and `cursor`) are unchanged.  Stated for the move
ending an arbitrary run of pointermoves after the interior pointer-down. -/
theorem C4_move_keeps_grab_offset (thr : ℚ) (env : Env) (s : Sys)
    (cX cY mX mY : ℚ) (ms : List (ℚ × ℚ)) (i : PointerInfo)
    (hs : s.sessions = [])
    (hi : UseResizable.getPointerInfo (rectOf env s.ctrl) thr cX cY = some i)
    (hL : i.nearLeft = false) (hR : i.nearRight = false)
    (hT : i.nearTop = false) (hB : i.nearBottom = false) :
    (UseResizable.run thr env s (Ev.down cX cY ::
        (movesAway ms ++ [Ev.moveAway mX mY]))).ctrl.x = mX - i.offsetX ∧
    (UseResizable.run thr env s (Ev.down cX cY ::
        (movesAway ms ++ [Ev.moveAway mX mY]))).ctrl.y = mY - i.offsetY ∧
    (UseResizable.run thr env s (Ev.down cX cY ::
        (movesAway ms ++ [Ev.moveAway mX mY]))).ctrl.width = s.ctrl.width ∧
    (UseResizable.run thr env s (Ev.down cX cY ::
        (movesAway ms ++ [Ev.moveAway mX mY]))).ctrl.height = s.ctrl.height ∧
    (UseResizable.run thr env s (Ev.down cX cY ::
        (movesAway ms ++ [Ev.moveAway mX mY]))).ctrl.cursor = s.ctrl.cursor := by
  have hdown : UseResizable.step thr env s (Ev.down cX cY)
      = ⟨s.ctrl, [Handler.move i.offsetX i.offsetY]⟩ := by
    obtain ⟨c, sess⟩ := s
    simp only at hs hi ⊢
    subst hs
    simp [UseResizable.step, UseResizable.pointerDown, hi,
      UseResizable.mkDirections, hL, hR, hT, hB]
  have h1 : UseResizable.run thr env s (Ev.down cX cY ::
      (movesAway ms ++ [Ev.moveAway mX mY]))
    = UseResizable.run thr env (UseResizable.step thr env s (Ev.down cX cY))
        (movesAway ms ++ [Ev.moveAway mX mY]) := rfl
  rw [h1, hdown, run_single_move_session]
  exact ⟨rfl, rfl, rfl, rfl, rfl⟩

/-- Witness for C4, the spec's worked example: element at (50, 50) sized
200×100, pointer-down at the interior point (70, 80) captures offset
(20, 30); a pointer-move to (120, 130) puts the position at (100, 100)
with the size unchanged. -/
theorem C4_move_keeps_grab_offset_witness :
    (UseResizable.run 16 ⟨true, 0, 0⟩ ⟨⟨50, 50, "default", 200, 100, 0, 0⟩, []⟩
        (Ev.down 70 80 :: (movesAway [] ++ [Ev.moveAway 120 130]))).ctrl.x
      = 100 ∧
    (UseResizable.run 16 ⟨true, 0, 0⟩ ⟨⟨50, 50, "default", 200, 100, 0, 0⟩, []⟩
        (Ev.down 70 80 :: (movesAway [] ++ [Ev.moveAway 120 130]))).ctrl.y
      = 100 ∧
    (UseResizable.run 16 ⟨true, 0, 0⟩ ⟨⟨50, 50, "default", 200, 100, 0, 0⟩, []⟩
        (Ev.down 70 80 :: (movesAway [] ++ [Ev.moveAway 120 130]))).ctrl.width
      = 200 ∧
    (UseResizable.run 16 ⟨true, 0, 0⟩ ⟨⟨50, 50, "default", 200, 100, 0, 0⟩, []⟩
        (Ev.down 70 80 :: (movesAway [] ++ [Ev.moveAway 120 130]))).ctrl.height
      = 100 := by
  have h := C4_move_keeps_grab_offset 16 ⟨true, 0, 0⟩
    ⟨⟨50, 50, "default", 200, 100, 0, 0⟩, []⟩ 70 80 120 130 []
    ⟨20, 30, false, false, false, false⟩ rfl
    (by norm_num [UseResizable.getPointerInfo, rectOf])
    rfl rfl rfl rfl
  refine ⟨?_, ?_, ?_, ?_⟩
  · rw [h.1]; norm_num
  · rw [h.2.1]; norm_num
  · rw [h.2.2.1]
  · rw [h.2.2.2.1]

/-- C5: during a right-edge (resp. bottom-edge) resize session each
pointer-move sets `width = anchor width + (current X − anchor X)` (resp.
`height = anchor height + (current Y − anchor Y)`) and leaves the position
(x, y) unchanged.  Stated for the move ending an arbitrary run of
pointermoves after the pointer-down. -/
theorem C5_right_bottom_resize_fixed_origin (thr : ℚ) (env : Env) (s : Sys)
    (cX cY mX mY : ℚ) (ms : List (ℚ × ℚ)) (i : PointerInfo)
    (hs : s.sessions = [])
    (hi : UseResizable.getPointerInfo (rectOf env s.ctrl) thr cX cY = some i) :
    (i.nearRight = true → i.nearLeft = false → i.nearTop = false →
        i.nearBottom = false →
      (UseResizable.run thr env s (Ev.down cX cY ::
          (movesAway ms ++ [Ev.moveAway mX mY]))).ctrl.width
        = s.ctrl.width + (mX - cX) ∧
      (UseResizable.run thr env s (Ev.down cX cY ::
          (movesAway ms ++ [Ev.moveAway mX mY]))).ctrl.x = s.ctrl.x ∧
      (UseResizable.run thr env s (Ev.down cX cY ::
          (movesAway ms ++ [Ev.moveAway mX mY]))).ctrl.y = s.ctrl.y) ∧
    (i.nearBottom = true → i.nearLeft = false → i.nearRight = false →
        i.nearTop = false →
      (UseResizable.run thr env s (Ev.down cX cY ::
          (movesAway ms ++ [Ev.moveAway mX mY]))).ctrl.height
        = s.ctrl.height + (mY - cY) ∧
      (UseResizable.run thr env s (Ev.down cX cY ::
          (movesAway ms ++ [Ev.moveAway mX mY]))).ctrl.x = s.ctrl.x ∧
      (UseResizable.run thr env s (Ev.down cX cY ::
          (movesAway ms ++ [Ev.moveAway mX mY]))).ctrl.y = s.ctrl.y) := by
  have hrun : ∀ (d : Directions),
      UseResizable.mkDirections i = d → d.horizontal.isSome || d.vertical.isSome →
      (UseResizable.run thr env s (Ev.down cX cY ::
          (movesAway ms ++ [Ev.moveAway mX mY]))).ctrl
        = UseResizable.createResizeHandler d cX cY s.ctrl.width s.ctrl.height mX mY
            { s.ctrl with initialX := s.ctrl.x, initialY := s.ctrl.y } := by
    intro d hd hsome
    have h1 : UseResizable.run thr env s (Ev.down cX cY ::
        (movesAway ms ++ [Ev.moveAway mX mY]))
      = UseResizable.run thr env (UseResizable.step thr env s (Ev.down cX cY))
          (movesAway ms ++ [Ev.moveAway mX mY]) := rfl
    rw [h1, pointerDown_single_flag thr env s cX cY i d hs hi hd hsome,
      run_single_resize_session]
  constructor
  · intro hR hL hT hB
    have hd : UseResizable.mkDirections i = ⟨some Horiz.right, none⟩ := by
      simp [UseResizable.mkDirections, hL, hR, hT, hB]
    rw [hrun ⟨some Horiz.right, none⟩ hd (by simp)]
    exact ⟨rfl, rfl, rfl⟩
  · intro hB hL hR hT
    have hd : UseResizable.mkDirections i = ⟨none, some Vert.bottom⟩ := by
      simp [UseResizable.mkDirections, hL, hR, hT, hB]
    rw [hrun ⟨none, some Vert.bottom⟩ hd (by simp)]
    exact ⟨rfl, rfl, rfl⟩

/-- Witness for C5, the spec's worked example: a 200×100 element at
(50, 50); a right-edge pointer-down followed by a +30 horizontal drag
gives width 230 with the position unchanged at (50, 50); a bottom-edge
pointer-down followed by a +30 vertical drag gives height 130, position
unchanged. -/
theorem C5_right_bottom_resize_fixed_origin_witness :
    (UseResizable.run 16 ⟨true, 0, 0⟩ ⟨⟨50, 50, "default", 200, 100, 0, 0⟩, []⟩
        (Ev.down 248 100 :: (movesAway [] ++ [Ev.moveAway 278 100]))).ctrl.width
      = 230 ∧
    (UseResizable.run 16 ⟨true, 0, 0⟩ ⟨⟨50, 50, "default", 200, 100, 0, 0⟩, []⟩
        (Ev.down 248 100 :: (movesAway [] ++ [Ev.moveAway 278 100]))).ctrl.x
      = 50 ∧
    (UseResizable.run 16 ⟨true, 0, 0⟩ ⟨⟨50, 50, "default", 200, 100, 0, 0⟩, []⟩
        (Ev.down 248 100 :: (movesAway [] ++ [Ev.moveAway 278 100]))).ctrl.y
      = 50 ∧
    (UseResizable.run 16 ⟨true, 0, 0⟩ ⟨⟨50, 50, "default", 200, 100, 0, 0⟩, []⟩
        (Ev.down 100 148 :: (movesAway [] ++ [Ev.moveAway 100 178]))).ctrl.height
      = 130 := by
  have h1 := (C5_right_bottom_resize_fixed_origin 16 ⟨true, 0, 0⟩
      ⟨⟨50, 50, "default", 200, 100, 0, 0⟩, []⟩ 248 100 278 100 []
      ⟨198, 50, false, true, false, false⟩ rfl
      (by norm_num [UseResizable.getPointerInfo, rectOf])).1 rfl rfl rfl rfl
  have h2 := (C5_right_bottom_resize_fixed_origin 16 ⟨true, 0, 0⟩
      ⟨⟨50, 50, "default", 200, 100, 0, 0⟩, []⟩ 100 148 100 178 []
      ⟨50, 98, false, false, false, true⟩ rfl
      (by norm_num [UseResizable.getPointerInfo, rectOf])).2 rfl rfl rfl rfl
  refine ⟨?_, ?_, ?_, ?_⟩
  · rw [h1.1]; norm_num
  · rw [h1.2.1]
  · rw [h1.2.2]
  · rw [h2.1]; norm_num
